import Mathlib

/-!
Shallow embedding of the rocm_bench package (core/services.py,
cli/commands/run.py, cli/commands/status.py) and proofs about it.

Machine floats of the source are modelled as rationals; the current time is
modelled as seconds since the Unix epoch; the timezone database behind
Python zoneinfo is modelled as a partial map from zone names to fixed UTC
offsets in seconds; process execution and GPU telemetry are opaque
capabilities supplied through an environment record.
-/

/-- JSON-like values as produced by Python json.loads (numbers as rationals). -/
inductive JVal where
  | null : JVal
  | bool : Bool → JVal
  | num : Rat → JVal
  | str : String → JVal
  | arr : List JVal → JVal
  | obj : List (String × JVal) → JVal

/-- Lookup of a key in an association list, as a Python dict lookup. -/
def jLookup (kvs : List (String × JVal)) (k : String) : Option JVal :=
  (kvs.find? (fun p => p.1 == k)).map (fun p => p.2)

/-- Python dict assignment d[k] = v: replaces the binding in place, else appends. -/
def setKey : List (String × JVal) → String → JVal → List (String × JVal)
  | [], k, v => [(k, v)]
  | (k', v') :: rest, k, v =>
      if k' == k then (k, v) :: rest else (k', v') :: setKey rest k v

/-- Python truthiness of a JSON value. -/
def truthy : JVal → Bool
  | JVal.null => false
  | JVal.bool b => b
  | JVal.num q => q != 0
  | JVal.str s => s != ""
  | JVal.arr l => !l.isEmpty
  | JVal.obj l => !l.isEmpty

/-- Rendering of a rational number; integers render as Python ints do. -/
def numStr (q : Rat) : String :=
  if q.den = 1 then toString q.num else toString q.num ++ "/" ++ toString q.den

mutual

/-- Python str() of a JSON value (nested container rendering is approximated:
element quoting of repr is not reproduced). -/
def pyStr : JVal → String
  | JVal.null => "None"
  | JVal.bool true => "True"
  | JVal.bool false => "False"
  | JVal.num q => numStr q
  | JVal.str s => s
  | JVal.arr l => "[" ++ pyStrList l ++ "]"
  | JVal.obj l => "\x7b" ++ pyStrObj l ++ "\x7d"

/-- Comma-separated rendering of list elements. -/
def pyStrList : List JVal → String
  | [] => ""
  | [x] => pyStr x
  | x :: xs => pyStr x ++ ", " ++ pyStrList xs

/-- Comma-separated rendering of object entries. -/
def pyStrObj : List (String × JVal) → String
  | [] => ""
  | [(k, v)] => k ++ ": " ++ pyStr v
  | (k, v) :: xs => k ++ ": " ++ pyStr v ++ ", " ++ pyStrObj xs

end

/-- Python round-half-to-even of a rational to the nearest integer: the floor
and the remainder are computed on the reduced numerator and denominator, and
the fractional part is compared against one half by cross multiplication. -/
def pyRoundInt (q : Rat) : Int :=
  let d : Int := (q.den : Int)
  let n : Int := Int.fdiv q.num d
  let r : Int := q.num - n * d
  if 2 * r < d then n
  else if d < 2 * r then n + 1
  else if n % 2 = 0 then n else n + 1

/-- Python round(q, 2): rounding to two decimal places, ties to even. -/
def pyRound2 (q : Rat) : Rat :=
  (pyRoundInt (q * 100) : Rat) / 100

/-- Decimal rendering of a natural number left-padded with zeros to width w. -/
def padNum (w : Nat) (n : Nat) : String :=
  let s := toString n
  if s.length < w then String.mk (List.replicate (w - s.length) '0') ++ s else s

/-- Rendering of a nonnegative count of hundredths as a fixed two-decimal string. -/
def hundredthsStr (m : Nat) : String :=
  toString (m / 100) ++ "." ++ padNum 2 (m % 100)

/-- Python format(q, ".2f") on a rational value. -/
def formatFixed2 (q : Rat) : String :=
  let n := pyRoundInt (q * 100)
  if n < 0 then "-" ++ hundredthsStr (-n).toNat else hundredthsStr n.toNat

/-- Python f-string conversion with format spec .2f; fails on values that do
not support the float format code, as the interpreter does. -/
def pyFormat2f : JVal → Except String String
  | JVal.num q => Except.ok (formatFixed2 q)
  | JVal.bool b => Except.ok (formatFixed2 (if b then 1 else 0))
  | JVal.null => Except.error "unsupported format string passed to NoneType.__format__"
  | JVal.str _ => Except.error "unknown format code f for object of type str"
  | JVal.arr _ => Except.error "unsupported format string passed to list.__format__"
  | JVal.obj _ => Except.error "unsupported format string passed to dict.__format__"

/-- Days since 1970-01-01 to a proleptic Gregorian civil date (year, month, day). -/
def civilFromDays (z : Int) : Int × Nat × Nat :=
  let z2 := z + 719468
  let era := Int.ediv z2 146097
  let doe := (z2 - era * 146097).toNat
  let yoe := (doe - doe / 1460 + doe / 36524 - doe / 146096) / 365
  let doy := doe - (365 * yoe + yoe / 4 - yoe / 100)
  let mp := (5 * doy + 2) / 153
  let d := doy - (153 * mp + 2) / 5 + 1
  let m := if mp < 10 then mp + 3 else mp - 9
  let y : Int := (yoe : Int) + era * 400 + (if m ≤ 2 then 1 else 0)
  (y, m, d)

/-- strftime of a wall-clock instant (seconds) in the compact form
YYYYMMDDTHHMMSSZ used by BenchmarkCollector.collect; the Z is a literal. -/
def formatCompactTs (t : Int) : String :=
  let days := Int.ediv t 86400
  let sod := (Int.emod t 86400).toNat
  let ymd := civilFromDays days
  padNum 4 ymd.1.toNat ++ padNum 2 ymd.2.1 ++ padNum 2 ymd.2.2 ++ "T" ++
    padNum 2 (sod / 3600) ++ padNum 2 (sod % 3600 / 60) ++ padNum 2 (sod % 60) ++ "Z"

/-- datetime.isoformat() of a wall-clock instant with a fixed UTC offset. -/
def isoFormatTs (t : Int) (offset : Int) : String :=
  let days := Int.ediv t 86400
  let sod := (Int.emod t 86400).toNat
  let ymd := civilFromDays days
  let sign := if offset < 0 then "-" else "+"
  let off := offset.natAbs
  padNum 4 ymd.1.toNat ++ "-" ++ padNum 2 ymd.2.1 ++ "-" ++ padNum 2 ymd.2.2 ++ "T" ++
    padNum 2 (sod / 3600) ++ ":" ++ padNum 2 (sod % 3600 / 60) ++ ":" ++
    padNum 2 (sod % 60) ++ sign ++ padNum 2 (off / 3600) ++ ":" ++ padNum 2 (off % 3600 / 60)

/-- Membership in the regex character class [A-Za-z0-9._-] of _SAFE_PATTERN. -/
def isSafeChar (c : Char) : Bool :=
  ('A' ≤ c && c ≤ 'Z') || ('a' ≤ c && c ≤ 'z') || ('0' ≤ c && c ≤ '9') ||
    c == '.' || c == '_' || c == '-'

/-- Membership in the strip set "-._" used by _slugify. -/
def isStripChar (c : Char) : Bool :=
  c == '-' || c == '.' || c == '_'

/-- re.sub of _SAFE_PATTERN (one or more unsafe characters) with "-": the flag
records whether the scanner is inside an unsafe run already replaced. -/
def subSafeGo : Bool → List Char → List Char
  | _, [] => []
  | inRun, c :: cs =>
    if isSafeChar c then c :: subSafeGo false cs
    else if inRun then subSafeGo true cs
    else '-' :: subSafeGo true cs

/-- str.strip("-._"): removes leading and trailing characters of the strip set. -/
def stripEnds (l : List Char) : List Char :=
  ((l.dropWhile isStripChar).reverse.dropWhile isStripChar).reverse

/-- The _slugify helper of core/services.py. -/
def _slugify (value : String) : String :=
  let s := String.mk (stripEnds (subSafeGo false value.data))
  if s = "" then "benchmark" else s

/-- Python string or-else: the left operand unless it is empty (falsy). -/
def pyOrElse (a b : String) : String :=
  if a = "" then b else a

/-- Largest element of a list of rationals, as Python max() on a list
(0 for the empty list, which the source never reaches). -/
def listMax : List Rat → Rat
  | [] => 0
  | x :: xs => xs.foldl max x

/-- The summary dictionary built by GpuUtilSampler.summary. -/
structure GpuSummary where
  provider : String
  sample_interval_seconds : Rat
  sample_count : Nat
  avg_gpu_load_percent : Rat
  max_gpu_load_percent : Rat
  avg_vram_mb : Rat
  max_vram_mb : Rat
deriving DecidableEq

/-- State of a GpuUtilSampler instance: the configured interval, the
accumulated (load fraction, vram bytes) samples, whether a live thread
handle is held (_thread is not None), the optional stop event (some b
with b true once set), and the optional device handle. -/
structure GpuUtilSampler where
  interval : Rat
  samples : List (Rat × Rat)
  thread : Bool
  stopEvent : Option Bool
  gpu : Option Unit

/-- GpuUtilSampler.__init__. -/
def GpuUtilSampler.init (interval : Rat) : GpuUtilSampler :=
  ⟨interval, [], false, none, none⟩

/-- GpuUtilSampler.start: given whether the pyamdgpuinfo module imported and
the result of get_gpu(0) (none when it raises), returns the boolean result
and the updated state. -/
def GpuUtilSampler.start (s : GpuUtilSampler) (pyamdgpuinfoAvailable : Bool)
    (gpuDevice : Option Unit) : Bool × GpuUtilSampler :=
  if !pyamdgpuinfoAvailable then (false, s)
  else
    match gpuDevice with
    | none => (false, { s with gpu := none })
    | some g => (true, { s with gpu := some g, stopEvent := some false, thread := true })

/-- GpuUtilSampler.stop: sets the stop event and joins the thread when they
exist, then resets both handles; the sample list is untouched. -/
def GpuUtilSampler.stop (s : GpuUtilSampler) : GpuUtilSampler :=
  { s with stopEvent := none, thread := false }

/-- One iteration of GpuUtilSampler._run_loop: appends a sample when the
device handle and the stop event exist and the event is not set. -/
def GpuUtilSampler.tick (s : GpuUtilSampler) (sample : Rat × Rat) : GpuUtilSampler :=
  match s.gpu, s.stopEvent with
  | none, _ => s
  | some _, none => s
  | some _, some ev =>
      if ev then s else { s with samples := s.samples ++ [sample] }

/-- GpuUtilSampler.summary. -/
def GpuUtilSampler.summary (s : GpuUtilSampler) : Option GpuSummary :=
  if s.samples.isEmpty then none
  else
    let loads := s.samples.map Prod.fst
    let vrams := s.samples.map Prod.snd
    let count := s.samples.length
    some
      { provider := "pyamdgpuinfo"
        sample_interval_seconds := s.interval
        sample_count := count
        avg_gpu_load_percent := pyRound2 ((loads.sum / (count : Rat)) * 100)
        max_gpu_load_percent := pyRound2 (listMax loads * 100)
        avg_vram_mb := pyRound2 ((vrams.sum / (count : Rat)) / (1024 ^ 2 : Rat))
        max_vram_mb := pyRound2 (listMax vrams / (1024 ^ 2 : Rat)) }

/-- Ambient time and configuration read by BenchmarkCollector.collect: the
configured APP_TIMEZONE name, the zoneinfo database (zone name to a fixed
UTC offset in seconds; none when ZoneInfo raises ZoneInfoNotFoundError),
and the current UTC time in seconds since the epoch. -/
structure TimeEnv where
  appTimezone : String
  tzdb : String → Option Int
  now : Int

/-- ZoneInfo(APP_TIMEZONE) with the except ZoneInfoNotFoundError fallback to
ZoneInfo("UTC"), reduced to the resulting UTC offset in seconds. -/
def resolveTz (tzdb : String → Option Int) (name : String) : Int :=
  (tzdb name).getD 0

/-- The record dictionary written by BenchmarkCollector.collect. In gpu_stats,
none encodes the empty JSON object (the "gpu_stats or \x7b\x7d" of the source). -/
structure BenchmarkRecord where
  label : String
  cmd : List String
  total_time_seconds : Rat
  runtime_seconds : Option Rat
  gpu_stats : Option GpuSummary
  extra : List (String × JVal)
  recorded_at : String

/-- BenchmarkCollector.collect: builds the record and the output path
(output_dir is joined with the slug_timestamp.json filename). Both
datetime.now(tz) calls of the source are modelled at the same instant. -/
def BenchmarkCollector.collect (env : TimeEnv) (output_dir : String) (label : String)
    (cmd : List String) (total_time : Rat) (runtime_seconds : Option Rat)
    (extra : Option (List (String × JVal))) (gpu_stats : Option GpuSummary) :
    BenchmarkRecord × String :=
  let tzOffset := resolveTz env.tzdb env.appTimezone
  let r : BenchmarkRecord :=
    { label := label
      cmd := cmd
      total_time_seconds := total_time
      runtime_seconds := runtime_seconds
      gpu_stats := gpu_stats
      extra := extra.getD []
      recorded_at := isoFormatTs (env.now + tzOffset) tzOffset }
  let slug := _slugify (pyOrElse label (cmd.headD "benchmark"))
  let ts := formatCompactTs (env.now + tzOffset)
  let filename := slug ++ "_" ++ ts ++ ".json"
  (r, output_dir ++ "/" ++ filename)

/-- Observable side effects of run_command_and_collect, in order of
occurrence: a telemetry access (pyamdgpuinfo.get_gpu), a child process
spawn attempt, a sampler stop, a record file write. -/
inductive Ev where
  | telemetry : Ev
  | spawn : List String → Ev
  | samplerStop : Ev
  | write : String → Ev
deriving DecidableEq

/-- Environment of one run_command_and_collect invocation: the time and
timezone configuration, whether pyamdgpuinfo imported, the get_gpu(0)
result, the samples the polling loop appends while the child runs, the
process-execution capability (exit code, or the launch exception), and the
measured wall-clock duration t1 - t0. -/
structure RunEnv where
  appTimezone : String
  tzdb : String → Option Int
  now : Int
  pyamdgpuinfo : Bool
  gpuHandle : Option Unit
  runSamples : List (Rat × Rat)
  runner : List String → Except String Int
  elapsed : Rat

/-- The run_command_and_collect orchestrator of core/services.py. Returns the
result (exit code and path, or the propagated launch exception), the ordered
effect trace, and the list of written (path, record) files. -/
def runCommandAndCollect (env : RunEnv) (cmd : List String) (label : String)
    (interval : Rat) (output_dir : String) (extra : Option (List (String × JVal)))
    (dry_run : Bool) :
    Except String (Int × String) × List Ev × List (String × BenchmarkRecord) :=
  let tenv : TimeEnv := ⟨env.appTimezone, env.tzdb, env.now⟩
  if dry_run then
    let metadata := setKey (extra.getD []) "dry_run" (JVal.bool true)
    let rp := BenchmarkCollector.collect tenv output_dir label cmd 0 (some 0)
      (some metadata) none
    (Except.ok (0, rp.2), [Ev.write rp.2], [(rp.2, rp.1)])
  else
    let s0 := GpuUtilSampler.init interval
    let startTrace := if env.pyamdgpuinfo then [Ev.telemetry] else []
    let st := s0.start env.pyamdgpuinfo env.gpuHandle
    let s1 := if st.1 then { st.2 with samples := st.2.samples ++ env.runSamples } else st.2
    match env.runner cmd with
    | Except.error e =>
        (Except.error e, startTrace ++ [Ev.spawn cmd, Ev.samplerStop], [])
    | Except.ok code =>
        let s2 := s1.stop
        let gpu_stats := if st.1 then s2.summary else none
        let rp := BenchmarkCollector.collect tenv output_dir label cmd env.elapsed none
          extra gpu_stats
        (Except.ok (code, rp.2),
          startTrace ++ [Ev.spawn cmd, Ev.samplerStop, Ev.write rp.2],
          [(rp.2, rp.1)])

/-- The extra key=val argument parsing of the exec command in
cli/commands/run.py: returns the metadata dict and the warning lines. -/
def parseExtras (args : List String) : List (String × JVal) × List String :=
  args.foldl
    (fun acc kv =>
      match kv.splitOn "=" with
      | [] => acc
      | [_] => (acc.1, acc.2 ++ ["[warn] ignoring extra \x27" ++ kv ++ "\x27, expected key=val"])
      | k :: rest => (setKey acc.1 k (JVal.str (String.intercalate "=" rest)), acc.2))
    ([], [])

/-- The exec command of cli/commands/run.py: parses extras, runs the
orchestrator, echoes the written path and exits with the returned code
(typer.Exit). A propagated launch exception leaves the CLI with that error.
Returns the exit outcome and the echoed lines. -/
def exec_ (env : RunEnv) (cmd : List String) (label : String) (output_dir : String)
    (interval : Rat) (extra : List String) (dry_run : Bool) :
    Except String Int × List String :=
  let pe := parseExtras extra
  match (runCommandAndCollect env cmd label interval output_dir (some pe.1) dry_run).1 with
  | Except.error e => (Except.error e, pe.2)
  | Except.ok (code, path) => (Except.ok code, pe.2 ++ ["[rocm-bench] wrote: " ++ path])

/-- The per-file body of the loop in status list_records for a successfully
read file, given the parsed JSON value: mirrors the source statement order
(label, total, gpu, avg, max lookups, then the formatted line; a .get on a
non-dict raises AttributeError before the line is formatted). -/
def processParsed (name : String) (data : JVal) : Except String String :=
  match data with
  | JVal.obj kvs =>
    let label := (jLookup kvs "label").getD (JVal.str "?")
    let total := (jLookup kvs "total_time_seconds").getD JVal.null
    let gpuRaw := (jLookup kvs "gpu_stats").getD JVal.null
    let gpu := if truthy gpuRaw then gpuRaw else JVal.obj []
    match gpu with
    | JVal.obj gkvs =>
      let avg := (jLookup gkvs "avg_gpu_load_percent").getD JVal.null
      let mx := (jLookup gkvs "max_gpu_load_percent").getD JVal.null
      match pyFormat2f total with
      | Except.error e => Except.error e
      | Except.ok totalStr =>
          Except.ok ("- " ++ name ++ " | label=" ++ pyStr label ++ " total=" ++ totalStr
            ++ "s avg=" ++ pyStr avg ++ "% max=" ++ pyStr mx ++ "%")
    | _ => Except.error "AttributeError: object has no attribute get"
  | _ => Except.error "AttributeError: object has no attribute get"

/-- The loop of status list_records over the selected files, each given as
its filename with the outcome of json.loads on its text. Returns the lines
printed in order, and some raised error when an unhandled exception aborts
the listing (the lines before the abort are the printed ones). -/
def list_records : List (String × Except String JVal) → List String × Option String
  | [] => ([], none)
  | (name, Except.error e) :: rest =>
      let r := list_records rest
      (("- " ++ name ++ " (failed to parse: " ++ e ++ ")") :: r.1, r.2)
  | (name, Except.ok data) :: rest =>
      match processParsed name data with
      | Except.error err => ([], some err)
      | Except.ok line =>
          let r := list_records rest
          (line :: r.1, r.2)

/-- A timezone database fragment with one real non-UTC zone (UTC offset
plus one hour) besides UTC itself. -/
def tzdbSample : String → Option Int := fun n =>
  if n = "Etc/GMT-1" then some 3600 else if n = "UTC" then some 0 else none

/-- A timezone database recognizing no zone name at all. -/
def tzdbEmpty : String → Option Int := fun _ => none

/-- A run environment whose process runner fails to launch any command. -/
def envLaunchFail : RunEnv :=
  ⟨"UTC", tzdbEmpty, 0, false, none, [], fun _ => Except.error "FileNotFoundError", 0⟩

/-- A run environment whose child command completes with exit code 3. -/
def envExit3 : RunEnv :=
  ⟨"UTC", tzdbEmpty, 0, false, none, [], fun _ => Except.ok 3, 1⟩

/-- A sampler state holding one sample: full load, two mebibytes of VRAM. -/
def sampler1 : GpuUtilSampler := ⟨1/2, [(1, 2097152)], false, none, none⟩

/-- Outcome of ZoneInfo(key) for one key: a fixed UTC offset on success, the
ZoneInfoNotFoundError the source catches for unrecognized zone names, or the
ValueError CPython zoneinfo raises for malformed keys (absolute paths or
non-normalized relative paths such as a trailing slash), which the source
does not catch. -/
inductive ZoneLookup where
  | found : Int → ZoneLookup
  | notFound : ZoneLookup
  | invalidKey : String → ZoneLookup

/-- The try/except of collect around ZoneInfo(APP_TIMEZONE): success keeps
the offset, ZoneInfoNotFoundError falls back to ZoneInfo("UTC") (offset
zero), and a ValueError propagates out of collect uncaught. -/
def resolveTzE (tzdb : String → ZoneLookup) (name : String) : Except String Int :=
  match tzdb name with
  | ZoneLookup.found off => Except.ok off
  | ZoneLookup.notFound => Except.ok 0
  | ZoneLookup.invalidKey msg => Except.error msg

/-- BenchmarkCollector.collect over the three-outcome zoneinfo model: the
record and path are built exactly as in collect when the timezone resolution
does not raise, and an uncaught ValueError makes the whole call fail before
anything is written. -/
def BenchmarkCollector.collectE (appTimezone : String) (tzdb : String → ZoneLookup)
    (now : Int) (output_dir label : String) (cmd : List String) (total_time : Rat)
    (runtime_seconds : Option Rat) (extra : Option (List (String × JVal)))
    (gpu_stats : Option GpuSummary) : Except String (BenchmarkRecord × String) :=
  match resolveTzE tzdb appTimezone with
  | Except.error e => Except.error e
  | Except.ok tzOffset =>
      let r : BenchmarkRecord :=
        { label := label
          cmd := cmd
          total_time_seconds := total_time
          runtime_seconds := runtime_seconds
          gpu_stats := gpu_stats
          extra := extra.getD []
          recorded_at := isoFormatTs (now + tzOffset) tzOffset }
      let slug := _slugify (pyOrElse label (cmd.headD "benchmark"))
      let ts := formatCompactTs (now + tzOffset)
      let filename := slug ++ "_" ++ ts ++ ".json"
      Except.ok (r, output_dir ++ "/" ++ filename)

/-- A zoneinfo model in which UTC resolves, the key UTC/ (a non-normalized
relative path) raises ValueError as CPython does, and every other name
raises ZoneInfoNotFoundError. -/
def tzdbWithInvalidKey : String → ZoneLookup := fun n =>
  if n = "UTC" then ZoneLookup.found 0
  else if n = "UTC/" then
    ZoneLookup.invalidKey
      "ValueError: UTC/ is not a valid key: keys must be normalized relative paths"
  else ZoneLookup.notFound

/-! Helper lemmas. -/

/-- Every character emitted by the substitution pass is in the safe class. -/
theorem all_subSafeGo (l : List Char) : ∀ b, ((subSafeGo b l).all isSafeChar) = true := by
  induction l with
  | nil => intro b; rfl
  | cons c cs ih =>
    intro b
    cases h : isSafeChar c with
    | true => simp [subSafeGo, h, ih]
    | false =>
      cases b with
      | true => simpa [subSafeGo, h] using ih true
      | false =>
        simp [subSafeGo, h, ih]
        decide

/-- dropWhile preserves an all predicate. -/
theorem all_dropWhile (p q : Char → Bool) (l : List Char) (h : l.all p = true) :
    ((l.dropWhile q).all p) = true := by
  induction l with
  | nil => simp
  | cons c cs ih =>
    simp only [List.all_cons, Bool.and_eq_true] at h
    cases hq : q c with
    | true => simpa [List.dropWhile_cons, hq] using ih h.2
    | false => simp [List.dropWhile_cons, hq, List.all_cons, h.1, h.2]

/-- Reversal preserves an all predicate. -/
theorem all_reverse_eq (p : Char → Bool) (l : List Char) :
    (l.reverse.all p) = (l.all p) := by
  simp [List.all_eq_true, List.mem_reverse]

/-- dropWhile returns a suffix of its input. -/
theorem dropWhile_append_eq (p : Char → Bool) (l : List Char) :
    ∃ t, t ++ l.dropWhile p = l := by
  induction l with
  | nil => exact ⟨[], rfl⟩
  | cons c cs ih =>
    cases h : p c with
    | true =>
      obtain ⟨t, ht⟩ := ih
      exact ⟨c :: t, by simp [List.dropWhile_cons, h, ht]⟩
    | false => exact ⟨[], by simp [List.dropWhile_cons, h]⟩

/-- The head of a dropWhile result does not satisfy the dropped predicate. -/
theorem headD_dropWhile_not (p : Char → Bool) (l : List Char) (d : Char)
    (hd : p d = false) : p ((l.dropWhile p).headD d) = false := by
  induction l with
  | nil => simpa using hd
  | cons c cs ih =>
    cases h : p c with
    | true => simpa [List.dropWhile_cons, h] using ih
    | false => simp [List.dropWhile_cons, h]

/-- The first character of a stripped list is not a strip character. -/
theorem stripEnds_headD (l : List Char) (d : Char) (hd : isStripChar d = false) :
    isStripChar ((stripEnds l).headD d) = false := by
  have hm : isStripChar ((l.dropWhile isStripChar).headD d) = false :=
    headD_dropWhile_not _ _ _ hd
  obtain ⟨t, ht⟩ := dropWhile_append_eq isStripChar (l.dropWhile isStripChar).reverse
  have hpre : (stripEnds l) ++ t.reverse = l.dropWhile isStripChar := by
    have h2 := congrArg List.reverse ht
    simpa [stripEnds, List.reverse_append] using h2
  cases he : stripEnds l with
  | nil => simpa [he] using hd
  | cons y ys =>
    rw [he] at hpre
    rw [← hpre] at hm
    simpa using hm

/-- getLastD of a reversal is headD of the original list. -/
theorem getLastD_reverse_eq (r : List Char) (d : Char) :
    r.reverse.getLastD d = r.headD d := by
  cases r with
  | nil => rfl
  | cons x xs => simp [List.reverse_cons, List.getLastD_concat]

/-- The last character of a stripped list is not a strip character. -/
theorem stripEnds_getLastD (l : List Char) (d : Char) (hd : isStripChar d = false) :
    isStripChar ((stripEnds l).getLastD d) = false := by
  have h1 : (stripEnds l).getLastD d
      = ((l.dropWhile isStripChar).reverse.dropWhile isStripChar).headD d :=
    getLastD_reverse_eq _ _
  rw [h1]
  exact headD_dropWhile_not _ _ _ hd

/-- Lookup in the empty association list yields nothing. -/
theorem jLookup_nil (k : String) : jLookup [] k = none := rfl

/-- pyRoundInt is the identity on integral rationals. -/
theorem pyRoundInt_intCast (m : Int) : pyRoundInt ((m : Rat)) = m := by
  simp [pyRoundInt, Rat.num_intCast, Rat.den_intCast, Int.fdiv_one]

/-- Evaluation rule for pyRound2 when the scaled argument is an integer. -/
theorem pyRound2_int (q : Rat) (m : Int) (h : q * 100 = (m : Rat)) :
    pyRound2 q = (m : Rat) / 100 := by
  unfold pyRound2
  rw [h, pyRoundInt_intCast]

/-! Claim theorems. -/

/-- C1 counterexample: with the recognized non-UTC configured zone Etc/GMT-1
(UTC offset plus one hour) at the epoch instant, the filename written by
collect carries the local wall-clock timestamp 19700101T010000Z, not the UTC
rendering 19700101T000000Z the claim requires; so the filename timestamp is
not the current time rendered in UTC regardless of the configured zone. -/
theorem collect_filename_not_utc_at_gmt_minus_one :
    (BenchmarkCollector.collect ⟨"Etc/GMT-1", tzdbSample, 0⟩ "benchmarks" "t" ["x"]
        0 none none none).2 = "benchmarks/t_19700101T010000Z.json"
    ∧ (BenchmarkCollector.collect ⟨"Etc/GMT-1", tzdbSample, 0⟩ "benchmarks" "t" ["x"]
        0 none none none).2
      ≠ "benchmarks/" ++ _slugify "t" ++ "_" ++ formatCompactTs 0 ++ ".json"
    ∧ "benchmarks/" ++ _slugify "t" ++ "_" ++ formatCompactTs 0 ++ ".json"
      = "benchmarks/t_19700101T000000Z.json" :=
  ⟨by decide, by decide, by decide⟩

/-- C1 (amended): for every collect call the written filename is
slug_timestamp.json where the timestamp is the current time converted to the
configured display timezone (falling back to UTC only when the zone name is
unrecognized), rendered as YYYYMMDDTHHMMSS with a literal Z suffix. -/
theorem collect_filename_uses_configured_timezone (env : TimeEnv) (dir label : String)
    (cmd : List String) (t : Rat) (rs : Option Rat) (ex : Option (List (String × JVal)))
    (gs : Option GpuSummary) :
    (BenchmarkCollector.collect env dir label cmd t rs ex gs).2
      = dir ++ "/" ++ (_slugify (pyOrElse label (cmd.headD "benchmark")) ++ "_"
        ++ formatCompactTs (env.now + resolveTz env.tzdb env.appTimezone) ++ ".json") := rfl

/-- C2 counterexample: a file that parses successfully as the empty JSON
object (so total_time_seconds is absent) makes the status reader raise the
NoneType format error and abort the listing, so the following file is never
reported; the claim that absent fields print as placeholders and the reader
never raises is false. -/
theorem list_records_raises_on_missing_total :
    list_records [("empty.json", Except.ok (JVal.obj [])), ("next.json", Except.error "x")]
      = ([], some "unsupported format string passed to NoneType.__format__") := rfl

/-- C2 (amended): a file failing JSON parsing is reported with its filename
and the parse error and the listing continues; a parsed record that does
contain a numeric total_time_seconds (and no gpu_stats entry) is printed with
its label (placeholder question mark when absent), its total formatted to two
decimals, and the None placeholder for absent average and maximum GPU load;
but a parsed record without total_time_seconds raises and aborts the listing. -/
theorem list_records_reports_and_continues (name e name2 : String)
    (rest : List (String × Except String JVal)) (kvs : List (String × JVal)) (q : Rat)
    (htotal : jLookup kvs "total_time_seconds" = some (JVal.num q))
    (hgpu : jLookup kvs "gpu_stats" = none) :
    list_records ((name, Except.error e) :: rest)
      = (("- " ++ name ++ " (failed to parse: " ++ e ++ ")") :: (list_records rest).1,
         (list_records rest).2)
    ∧ list_records ((name, Except.ok (JVal.obj kvs)) :: rest)
      = (("- " ++ name ++ " | label=" ++ pyStr ((jLookup kvs "label").getD (JVal.str "?"))
            ++ " total=" ++ formatFixed2 q ++ "s avg=" ++ "None" ++ "% max="
            ++ "None" ++ "%")
           :: (list_records rest).1,
         (list_records rest).2)
    ∧ list_records [(name2, Except.ok (JVal.obj []))]
      = ([], some "unsupported format string passed to NoneType.__format__") := by
  refine ⟨rfl, ?_, rfl⟩
  simp [list_records, processParsed, htotal, hgpu, truthy, pyFormat2f, pyStr, jLookup_nil]

/-- C2 witness: a concrete record file with a numeric total and no label or
gpu_stats entries is printed with the question-mark and None placeholders. -/
theorem list_records_reports_and_continues_witness :
    jLookup [("total_time_seconds", JVal.num 5)] "total_time_seconds"
        = some (JVal.num 5)
    ∧ jLookup [("total_time_seconds", JVal.num 5)] "gpu_stats" = none
    ∧ list_records [("a.json", Except.ok (JVal.obj [("total_time_seconds", JVal.num 5)]))]
      = (["- a.json | label=? total=5.00s avg=None% max=None%"], none) := by
  refine ⟨rfl, rfl, ?_⟩
  have h := (list_records_reports_and_continues "a.json" "boom" "b.json" []
    [("total_time_seconds", JVal.num 5)] 5 rfl rfl).2.1
  rw [h]
  have h500 : pyRoundInt ((5 : Rat) * 100) = 500 := by
    rw [show ((5 : Rat) * 100) = (((500 : Int) : Rat)) by norm_num]
    exact pyRoundInt_intCast 500
  have hf : formatFixed2 (5 : Rat) = "5.00" := by
    simp only [formatFixed2, h500]
    decide
  simp [jLookup, pyStr, hf, list_records]

/-- C3 counterexample: with the configured timezone string UTC/ (a malformed
zone key), ZoneInfo raises ValueError, which collect catches nowhere: the
call fails before any record is produced, refuting the claim that collect
never fails because of the timezone configuration. -/
theorem collect_fails_on_invalid_timezone_key :
    BenchmarkCollector.collectE "UTC/" tzdbWithInvalidKey 0 "out" "t" ["x"] 0 none none none
      = Except.error
          "ValueError: UTC/ is not a valid key: keys must be normalized relative paths" := rfl

/-- C3 (amended): when the configured zone name is merely unrecognized, so
that ZoneInfo raises ZoneInfoNotFoundError, collect does not fail: the error
is caught, the timezone falls back to UTC, and the record and the
UTC-rendered path are produced exactly as under a UTC configuration; but a
malformed zone key raising ValueError is not caught, so collect does not
tolerate every configured timezone string. -/
theorem collect_falls_back_only_on_not_found (tzdb : String → ZoneLookup)
    (name dir label : String) (cmd : List String) (t : Rat) (rs : Option Rat)
    (ex : Option (List (String × JVal))) (gs : Option GpuSummary) (now : Int)
    (h : tzdb name = ZoneLookup.notFound) :
    resolveTzE tzdb name = Except.ok 0
    ∧ BenchmarkCollector.collectE name tzdb now dir label cmd t rs ex gs
        = Except.ok (BenchmarkCollector.collect ⟨name, fun _ => none, now⟩ dir label cmd
            t rs ex gs)
    ∧ (BenchmarkCollector.collect ⟨name, fun _ => none, now⟩ dir label cmd t rs ex gs).2
        = dir ++ "/" ++ (_slugify (pyOrElse label (cmd.headD "benchmark")) ++ "_"
          ++ formatCompactTs now ++ ".json") := by
  have h0 : resolveTzE tzdb name = Except.ok 0 := by simp [resolveTzE, h]
  refine ⟨h0, ?_, ?_⟩
  · simp only [BenchmarkCollector.collectE, h0]
    rfl
  · show dir ++ "/" ++ (_slugify (pyOrElse label (cmd.headD "benchmark")) ++ "_"
        ++ formatCompactTs (now + 0) ++ ".json") = _
    rw [add_zero]

/-- C3 witness: a merely unrecognized zone name at the epoch instant falls
back to UTC and produces the record and the UTC-rendered path. -/
theorem collect_falls_back_only_on_not_found_witness :
    tzdbWithInvalidKey "Nowhere/City" = ZoneLookup.notFound
    ∧ (resolveTzE tzdbWithInvalidKey "Nowhere/City" = Except.ok 0
        ∧ BenchmarkCollector.collectE "Nowhere/City" tzdbWithInvalidKey 0 "out" "t" ["x"]
            0 none none none
          = Except.ok (BenchmarkCollector.collect ⟨"Nowhere/City", fun _ => none, 0⟩ "out"
              "t" ["x"] 0 none none none)
        ∧ (BenchmarkCollector.collect ⟨"Nowhere/City", fun _ => none, 0⟩ "out" "t" ["x"]
            0 none none none).2
          = "out" ++ "/" ++ (_slugify (pyOrElse "t" (["x"].headD "benchmark")) ++ "_"
            ++ formatCompactTs 0 ++ ".json")) :=
  ⟨rfl, collect_falls_back_only_on_not_found tzdbWithInvalidKey "Nowhere/City" "out" "t"
    ["x"] 0 none none none 0 rfl⟩

/-- C4: when launching the child command fails, run_command_and_collect
performs the sampler stop after the spawn attempt and before returning, the
launch error propagates to the caller, and no record file is written (the
write list is empty and the trace holds no write event). -/
theorem run_launch_failure_stops_sampler_writes_nothing (env : RunEnv)
    (cmd : List String) (label : String) (interval : Rat) (dir : String)
    (extra : Option (List (String × JVal))) (e : String)
    (h : env.runner cmd = Except.error e) :
    runCommandAndCollect env cmd label interval dir extra false
      = (Except.error e,
         (if env.pyamdgpuinfo then [Ev.telemetry] else []) ++ [Ev.spawn cmd, Ev.samplerStop],
         []) := by
  simp [runCommandAndCollect, h]

/-- C4 witness: a concrete environment whose runner raises
FileNotFoundError. -/
theorem run_launch_failure_stops_sampler_writes_nothing_witness :
    envLaunchFail.runner ["nosuch"] = Except.error "FileNotFoundError"
    ∧ runCommandAndCollect envLaunchFail ["nosuch"] "t" (1/2) "out" none false
      = (Except.error "FileNotFoundError",
         (if envLaunchFail.pyamdgpuinfo then [Ev.telemetry] else [])
           ++ [Ev.spawn ["nosuch"], Ev.samplerStop],
         []) :=
  ⟨rfl, run_launch_failure_stops_sampler_writes_nothing envLaunchFail ["nosuch"] "t" (1/2)
    "out" none "FileNotFoundError" rfl⟩

/-- C5: with dry_run true, run_command_and_collect spawns no process and
never touches the telemetry capability (the trace is exactly one write
event), writes one record whose total_time_seconds and runtime_seconds are
zero and whose gpu_stats is the empty mapping, with extra augmented by the
dry_run true marker, and returns exit code zero with the written path. -/
theorem run_dry_run_no_spawn_no_telemetry (env : RunEnv) (cmd : List String)
    (label : String) (interval : Rat) (dir : String)
    (extra : Option (List (String × JVal))) :
    ∃ p r,
      runCommandAndCollect env cmd label interval dir extra true
        = (Except.ok (0, p), [Ev.write p], [(p, r)])
      ∧ Ev.telemetry ∉ [Ev.write p]
      ∧ (∀ c, Ev.spawn c ∉ [Ev.write p])
      ∧ r.total_time_seconds = 0
      ∧ r.runtime_seconds = some 0
      ∧ r.gpu_stats = none
      ∧ r.extra = setKey (extra.getD []) "dry_run" (JVal.bool true) := by
  refine ⟨_, _, rfl, by simp, fun c => by simp, rfl, rfl, rfl, rfl⟩

/-- C6: summary returns none exactly when no samples were recorded, and on a
nonempty sample sequence it reports the provider tag, the configured
interval, the sample count, average and maximum load as the load fraction
times one hundred rounded to two decimals, and average and maximum VRAM as
bytes divided by 1024 squared rounded to two decimals. -/
theorem summary_none_iff_empty_and_fields (s : GpuUtilSampler) :
    (s.summary = none ↔ s.samples = [])
    ∧ (s.samples ≠ [] →
        s.summary = some
          { provider := "pyamdgpuinfo"
            sample_interval_seconds := s.interval
            sample_count := s.samples.length
            avg_gpu_load_percent :=
              pyRound2 (100 * ((s.samples.map Prod.fst).sum / (s.samples.length : Rat)))
            max_gpu_load_percent := pyRound2 (100 * listMax (s.samples.map Prod.fst))
            avg_vram_mb :=
              pyRound2 (((s.samples.map Prod.snd).sum / (s.samples.length : Rat))
                / (1024 * 1024))
            max_vram_mb := pyRound2 (listMax (s.samples.map Prod.snd) / (1024 * 1024)) }) := by
  by_cases h : s.samples = []
  · exact ⟨by simp [GpuUtilSampler.summary, h], fun hne => absurd h hne⟩
  · have hi : s.samples.isEmpty = false := by simpa [List.isEmpty_iff] using h
    constructor
    · simp [GpuUtilSampler.summary, hi, h]
    · intro _
      simp only [GpuUtilSampler.summary, hi, Bool.false_eq_true, if_false]
      refine congrArg some ?_
      simp only [GpuSummary.mk.injEq]
      refine ⟨trivial, trivial, trivial, congrArg pyRound2 (mul_comm _ _),
        congrArg pyRound2 (mul_comm _ _), ?_, ?_⟩
      · rw [pow_two]
      · rw [pow_two]

/-- C6 witness: one sample of full load and two mebibytes yields 100 percent
average and maximum load and 2 megabytes average and maximum VRAM. -/
theorem summary_none_iff_empty_and_fields_witness :
    sampler1.samples ≠ []
    ∧ sampler1.summary = some
        { provider := "pyamdgpuinfo", sample_interval_seconds := 1/2, sample_count := 1,
          avg_gpu_load_percent := 100, max_gpu_load_percent := 100,
          avg_vram_mb := 2, max_vram_mb := 2 } := by
  have hne : sampler1.samples ≠ [] := by simp [sampler1]
  refine ⟨hne, ?_⟩
  have h := (summary_none_iff_empty_and_fields sampler1).2 hne
  rw [h]
  have q1 : pyRound2 ((100 : Rat)
      * ((sampler1.samples.map Prod.fst).sum / (sampler1.samples.length : Rat))) = 100 := by
    have hq : ((100 : Rat)
        * ((sampler1.samples.map Prod.fst).sum / (sampler1.samples.length : Rat))) * 100
        = ((10000 : Int) : Rat) := by norm_num [sampler1]
    rw [pyRound2_int _ _ hq]
    norm_num
  have q2 : pyRound2 ((100 : Rat) * listMax (sampler1.samples.map Prod.fst)) = 100 := by
    have hq : ((100 : Rat) * listMax (sampler1.samples.map Prod.fst)) * 100
        = ((10000 : Int) : Rat) := by norm_num [sampler1, listMax]
    rw [pyRound2_int _ _ hq]
    norm_num
  have q3 : pyRound2 (((sampler1.samples.map Prod.snd).sum / (sampler1.samples.length : Rat))
      / (1024 * 1024)) = 2 := by
    have hq : (((sampler1.samples.map Prod.snd).sum / (sampler1.samples.length : Rat))
        / (1024 * 1024)) * 100 = ((200 : Int) : Rat) := by norm_num [sampler1]
    rw [pyRound2_int _ _ hq]
    norm_num
  have q4 : pyRound2 (listMax (sampler1.samples.map Prod.snd) / (1024 * 1024)) = 2 := by
    have hq : (listMax (sampler1.samples.map Prod.snd) / (1024 * 1024)) * 100
        = ((200 : Int) : Rat) := by norm_num [sampler1, listMax]
    rw [pyRound2_int _ _ hq]
    norm_num
  rw [q1, q2, q3, q4]
  rfl

/-- C7: for every input string the slug contains only characters of the safe
class, is never empty, never starts or ends with a dash, dot or underscore,
and the empty and all-star labels both produce the benchmark fallback; the
function is total by construction. -/
theorem slugify_character_set_and_fallback (s : String) :
    ((_slugify s).data.all isSafeChar) = true
    ∧ _slugify s ≠ ""
    ∧ isStripChar ((_slugify s).data.headD 'a') = false
    ∧ isStripChar ((_slugify s).data.getLastD 'a') = false
    ∧ _slugify "" = "benchmark"
    ∧ _slugify "***" = "benchmark" := by
  by_cases h : String.mk (stripEnds (subSafeGo false s.data)) = ""
  · have he : _slugify s = "benchmark" := by simp [_slugify, h]
    rw [he]
    exact ⟨by decide, by decide, by decide, by decide, by decide, by decide⟩
  · have he : _slugify s = String.mk (stripEnds (subSafeGo false s.data)) := by
      simp [_slugify, h]
    rw [he]
    refine ⟨?_, by simpa using h, ?_, ?_, by decide, by decide⟩
    · show ((stripEnds (subSafeGo false s.data)).all isSafeChar) = true
      unfold stripEnds
      rw [all_reverse_eq]
      apply all_dropWhile
      rw [all_reverse_eq]
      apply all_dropWhile
      exact all_subSafeGo _ false
    · exact stripEnds_headD _ _ (by decide)
    · exact stripEnds_getLastD _ _ (by decide)

/-- C8: stop is idempotent, leaves the summary unchanged, and is safe on a
freshly initialized sampler that never started (the model of stop is a total
function, so it never raises). -/
theorem sampler_stop_idempotent_safe (s : GpuUtilSampler) (i : Rat) :
    s.stop.stop = s.stop
    ∧ s.stop.summary = s.summary
    ∧ (GpuUtilSampler.init i).stop = GpuUtilSampler.init i :=
  ⟨rfl, rfl, rfl⟩

/-- C9: when the child command completes with exit code c, the orchestrator
returns c with the written path, exactly one record is written, its gpu_stats
is the empty mapping when start returned false and the sampler summary over
the collected samples when start returned true, and the CLI exec command
exits with the same code c. -/
theorem run_passes_child_exit_code_through (env : RunEnv) (cmd : List String)
    (label : String) (interval : Rat) (dir : String)
    (extra : Option (List (String × JVal))) (extraArgs : List String) (c : Int)
    (h : env.runner cmd = Except.ok c) :
    ∃ p r,
      runCommandAndCollect env cmd label interval dir extra false
        = (Except.ok (c, p),
           (if env.pyamdgpuinfo then [Ev.telemetry] else [])
             ++ [Ev.spawn cmd, Ev.samplerStop, Ev.write p],
           [(p, r)])
      ∧ ((env.pyamdgpuinfo && env.gpuHandle.isSome) = false → r.gpu_stats = none)
      ∧ ((env.pyamdgpuinfo && env.gpuHandle.isSome) = true →
          r.gpu_stats
            = GpuUtilSampler.summary ⟨interval, env.runSamples, false, none, env.gpuHandle⟩)
      ∧ (exec_ env cmd label dir interval extraArgs false).1 = Except.ok c := by
  cases hpy : env.pyamdgpuinfo with
  | false =>
    refine ⟨(BenchmarkCollector.collect ⟨env.appTimezone, env.tzdb, env.now⟩ dir label cmd
        env.elapsed none extra none).2,
      (BenchmarkCollector.collect ⟨env.appTimezone, env.tzdb, env.now⟩ dir label cmd
        env.elapsed none extra none).1, ?_, ?_, ?_, ?_⟩
    · simp [runCommandAndCollect, hpy, h, GpuUtilSampler.start, GpuUtilSampler.init,
        GpuUtilSampler.stop]
    · intro _; rfl
    · intro hcontra; simp at hcontra
    · simp [exec_, runCommandAndCollect, hpy, h, GpuUtilSampler.start, GpuUtilSampler.init]
  | true =>
    cases hg : env.gpuHandle with
    | none =>
      refine ⟨(BenchmarkCollector.collect ⟨env.appTimezone, env.tzdb, env.now⟩ dir label cmd
          env.elapsed none extra none).2,
        (BenchmarkCollector.collect ⟨env.appTimezone, env.tzdb, env.now⟩ dir label cmd
          env.elapsed none extra none).1, ?_, ?_, ?_, ?_⟩
      · simp [runCommandAndCollect, hpy, hg, h, GpuUtilSampler.start, GpuUtilSampler.init,
          GpuUtilSampler.stop]
      · intro _; rfl
      · intro hcontra; simp at hcontra
      · simp [exec_, runCommandAndCollect, hpy, hg, h, GpuUtilSampler.start,
          GpuUtilSampler.init]
    | some g =>
      refine ⟨(BenchmarkCollector.collect ⟨env.appTimezone, env.tzdb, env.now⟩ dir label cmd
          env.elapsed none extra
          (GpuUtilSampler.summary ⟨interval, env.runSamples, false, none, some g⟩)).2,
        (BenchmarkCollector.collect ⟨env.appTimezone, env.tzdb, env.now⟩ dir label cmd
          env.elapsed none extra
          (GpuUtilSampler.summary ⟨interval, env.runSamples, false, none, some g⟩)).1,
        ?_, ?_, ?_, ?_⟩
      · simp [runCommandAndCollect, hpy, hg, h, GpuUtilSampler.start, GpuUtilSampler.init,
          GpuUtilSampler.stop]
      · intro hcontra; simp at hcontra
      · intro _; rfl
      · simp [exec_, runCommandAndCollect, hpy, hg, h, GpuUtilSampler.start,
          GpuUtilSampler.init]

/-- C9 witness: a child completing with exit code 3 in an environment without
telemetry. -/
theorem run_passes_child_exit_code_through_witness :
    envExit3.runner ["prog"] = Except.ok 3
    ∧ ∃ p r, runCommandAndCollect envExit3 ["prog"] "t" (1/2) "out" none false
        = (Except.ok (3, p),
           (if envExit3.pyamdgpuinfo then [Ev.telemetry] else [])
             ++ [Ev.spawn ["prog"], Ev.samplerStop, Ev.write p],
           [(p, r)])
      ∧ ((envExit3.pyamdgpuinfo && envExit3.gpuHandle.isSome) = false → r.gpu_stats = none)
      ∧ ((envExit3.pyamdgpuinfo && envExit3.gpuHandle.isSome) = true →
          r.gpu_stats = GpuUtilSampler.summary
            ⟨1/2, envExit3.runSamples, false, none, envExit3.gpuHandle⟩)
      ∧ (exec_ envExit3 ["prog"] "t" "out" (1/2) [] false).1 = Except.ok 3 :=
  ⟨rfl, run_passes_child_exit_code_through envExit3 ["prog"] "t" (1/2) "out" none [] 3 rfl⟩

/-- C10: stop never clears the accumulated samples (the summary after stop
reflects every sample collected so far), a subsequent start leaves the
sample sequence in place, and a sampling tick after such a restart appends
to the existing sequence rather than resetting it. -/
theorem stop_preserves_samples_accumulation (s : GpuUtilSampler) (pa : Bool)
    (dev : Option Unit) (x : Rat × Rat) :
    (s.stop).samples = s.samples
    ∧ (s.stop).summary = s.summary
    ∧ ((s.stop.start pa dev).2).samples = s.samples
    ∧ (GpuUtilSampler.tick ((s.stop.start true (some ())).2) x).samples
        = s.samples ++ [x] := by
  refine ⟨rfl, rfl, ?_, ?_⟩
  · cases pa with
    | false => rfl
    | true => cases dev with
      | none => rfl
      | some g => rfl
  · rfl
